import Mathlib

/-!
Shallow embedding of `generate_icons.py` (icon generator of the raads-r PWA
repository) and proofs about its behaviour.

Modelling conventions:
* PIL images are modelled as a mode string, dimensions, and a pixel map
  `Int → Int → RGBA`; drawing primitives (`draw.ellipse`, `draw.text`) are
  recorded as a command list and interpreted by overdraw (later commands
  replace earlier pixels, no alpha compositing), which is what
  `ImageDraw.Draw` on an RGBA image does.
* Font metrics (`ImageFont.truetype` availability, `draw.textbbox`, glyph
  pixel coverage) are external inputs of the program, modelled by an
  abstract `FontEnv`.
* Python's float division `i / radius` followed by `int(...)` truncation is
  modelled by exact rational arithmetic: on the nonnegative values arising
  here `int(255 * (i / radius))` is the rational floor `(255 * i) / radius`,
  i.e. Nat division.  Division by zero raises, modelled with `Except`.
* `range(radius, 0, -1)` is the descending list `[radius, ..., 1]`, empty
  when `radius ≤ 0`.
-/

namespace RaadsIcons

/-- RGBA colour with integer channels, as PIL stores pixels. -/
structure RGBA where
  r : Nat
  g : Nat
  b : Nat
  a : Nat
deriving DecidableEq

/-- The fully transparent pixel `(0, 0, 0, 0)`. -/
def clear : RGBA := ⟨0, 0, 0, 0⟩

/-- A font value: `ImageFont.truetype(path, size)` or `ImageFont.load_default()`. -/
inductive FontSpec where
  | truetype (path : String) (fontSize : Nat)
  | loadDefault
deriving DecidableEq

/-- Result of `draw.textbbox((0, 0), text, font=font)`: the bounding box of the
text rendered at origin `(0, 0)`. -/
structure BBoxT where
  x0 : Int
  y0 : Int
  x1 : Int
  y1 : Int

/-- One drawing primitive executed on the canvas: `draw.ellipse([x0,y0,x1,y1],
fill=c)` or `draw.text((x, y), txt, fill=c, font=f)`. -/
inductive Cmd where
  | ellipse (x0 y0 x1 y1 : Int) (fill : RGBA)
  | text (x y : Int) (txt : String) (fill : RGBA) (font : FontSpec)
deriving DecidableEq

/-- Abstract font environment: whether the Arial truetype file loads (line 43,
`ImageFont.truetype` succeeds) and the font metrics the imaging library
reports: the bounding box returned by `draw.textbbox` and which pixels
(relative to the draw origin) a glyph covers.  Font metrics are external to
the program. -/
structure FontEnv where
  arialAvailable : Bool
  bboxOf : FontSpec → String → BBoxT
  mask : FontSpec → String → Int → Int → Bool

/-- Exceptions the modelled code can raise. -/
inductive PyErr where
  | zeroDivision
  | importError
deriving DecidableEq

/-- Python `255 * (i / radius)` truncated by `int(...)`: on nonnegative
operands this is rational floor division; `x / 0` raises `ZeroDivisionError`. -/
def pyDiv (a b : Nat) : Except PyErr Nat :=
  if b = 0 then .error .zeroDivision else .ok (a / b)

/-- Effectful map over a list, propagating the first raised exception, as a
Python `for` loop over the list does. -/
def pyMapM {α β : Type} (f : α → Except PyErr β) : List α → Except PyErr (List β)
  | [] => .ok []
  | a :: l => do
    let b ← f a
    let bs ← pyMapM f l
    .ok (b :: bs)

/-- Lines 17-19: the fixed list of required PWA icon sizes. -/
def ICON_SIZES : List Nat := [16, 32, 36, 48, 72, 96, 128, 144, 152, 192, 384, 512]

/-- Line 28: `center = size // 2`. -/
def centerN (size : Nat) : Nat := size / 2

/-- Line 29: `radius = center - 4` (Python int subtraction can go negative). -/
def radiusZ (size : Nat) : Int := (centerN size : Int) - 4

/-- `range(r, 0, -1)`: the list `[r, r-1, ..., 1]`, empty when `r ≤ 0`. -/
def ringRange (r : Int) : List Nat := (List.range r.toNat).map (fun k => r.toNat - k)

/-- Lines 33-36, one iteration of the gradient loop: `alpha = int(255 * (i /
radius))`, `color_intensity = int(13 + (110 * (1 - i / radius)))` (equal to
`13 + int(110 * (radius - i) / radius)` since 13 is an integer), and the
filled circle `draw.ellipse([center-i, center-i, center+i, center+i],
fill=(color_intensity, 110, 253, alpha))`. -/
def ringCmdE (size i : Nat) : Except PyErr Cmd := do
  let r := (radiusZ size).toNat
  let alpha ← pyDiv (255 * i) r
  let colorIntensity ← pyDiv (110 * (r - i)) r
  let c : Int := (centerN size : Int)
  .ok (.ellipse (c - i) (c - i) (c + i) (c + i) ⟨13 + colorIntensity, 110, 253, alpha⟩)

/-- The value `ringCmdE size i` produces when the radius is nonzero
(used to state what the ring trace contains). -/
def ringCmdVal (size i : Nat) : Cmd :=
  let r := (radiusZ size).toNat
  let c : Int := (centerN size : Int)
  .ellipse (c - i) (c - i) (c + i) (c + i)
    ⟨13 + 110 * (r - i) / r, 110, 253, 255 * i / r⟩

/-- Line 43: the specific system font path the code tries first. -/
def arialPath : String := "/System/Library/Fonts/Arial.ttf"

/-- Line 42: `font_size = max(size // 8, 12)`. -/
def fontSizeFor (size : Nat) : Nat := max (size / 8) 12

/-- Lines 40-46: `try: font = ImageFont.truetype(arialPath, font_size)
except: font = ImageFont.load_default()`.  The bare `except` catches any
failure, so a font value is always obtained. -/
def fontFor (env : FontEnv) (size : Nat) : FontSpec :=
  if env.arialAvailable then .truetype arialPath (fontSizeFor size) else .loadDefault

/-- Line 50: `bbox = draw.textbbox((0, 0), "R", font=font)`. -/
def glyphBBox (env : FontEnv) (size : Nat) : BBoxT :=
  env.bboxOf (fontFor env size) "R"

/-- Lines 51-54: `text_width = bbox[2] - bbox[0]`; `text_x = (size -
text_width) // 2` (Python `//` is floor division). -/
def glyphX (env : FontEnv) (size : Nat) : Int :=
  ((size : Int) - ((glyphBBox env size).x1 - (glyphBBox env size).x0)).fdiv 2

/-- Lines 52-55: `text_height = bbox[3] - bbox[1]`; `text_y = (size -
text_height) // 2`. -/
def glyphY (env : FontEnv) (size : Nat) : Int :=
  ((size : Int) - ((glyphBBox env size).y1 - (glyphBBox env size).y0)).fdiv 2

/-- Lines 38-60: if `size >= 72`, draw the "R" glyph twice: shadow first at
`(text_x + 1, text_y + 1)` in `(0, 0, 0, 128)`, then the main glyph at
`(text_x, text_y)` in `(255, 255, 255, 255)`; otherwise draw nothing. -/
def textCmds (env : FontEnv) (size : Nat) : List Cmd :=
  if 72 ≤ size then
    [.text (glyphX env size + 1) (glyphY env size + 1) "R" ⟨0, 0, 0, 128⟩ (fontFor env size),
     .text (glyphX env size) (glyphY env size) "R" ⟨255, 255, 255, 255⟩ (fontFor env size)]
  else []

/-- Lines 21-62 as a drawing trace: the gradient rings (largest to smallest)
followed by the optional glyph commands. -/
def defaultIconCmds (env : FontEnv) (size : Nat) : Except PyErr (List Cmd) := do
  let rings ← pyMapM (ringCmdE size) (ringRange (radiusZ size))
  .ok (rings ++ textCmds env size)

/-- An in-memory PIL image: mode, dimensions, and pixel map. -/
structure Image where
  mode : String
  width : Nat
  height : Nat
  px : Int → Int → RGBA

/-- Pixel membership test for `draw.ellipse([x0,y0,x1,y1])`: the point lies in
the ellipse inscribed in the bounding box (written multiplied out to stay in
integers). -/
def inEllipse (x0 y0 x1 y1 x y : Int) : Bool :=
  decide ((2 * x - (x0 + x1)) ^ 2 * (y1 - y0) ^ 2 + (2 * y - (y0 + y1)) ^ 2 * (x1 - x0) ^ 2
    ≤ (x1 - x0) ^ 2 * (y1 - y0) ^ 2)

/-- Which pixels a drawing command covers.  A text command covers the glyph
pixels given by the font environment, translated to the draw position. -/
def covers (env : FontEnv) : Cmd → Int → Int → Bool
  | .ellipse x0 y0 x1 y1 _, x, y => inEllipse x0 y0 x1 y1 x y
  | .text tx ty t _ f, x, y => env.mask f t (x - tx) (y - ty)

/-- The fill colour of a drawing command. -/
def cmdFill : Cmd → RGBA
  | .ellipse _ _ _ _ c => c
  | .text _ _ _ c _ => c

/-- Execute one drawing command: covered pixels are replaced by the fill
colour (overdraw, no alpha blending). -/
def applyCmd (env : FontEnv) (img : Image) (c : Cmd) : Image :=
  { img with px := fun x y => if covers env c x y then cmdFill c else img.px x y }

/-- Line 24: `Image.new('RGBA', (size, size), (0, 0, 0, 0))`. -/
def blankImage (size : Nat) : Image :=
  { mode := "RGBA", width := size, height := size, px := fun _ _ => clear }

/-- Interpret a drawing trace on a fresh transparent canvas. -/
def renderCmds (env : FontEnv) (size : Nat) (cmds : List Cmd) : Image :=
  cmds.foldl (applyCmd env) (blankImage size)

/-- Lines 21-62: `create_default_icon(size)`. -/
def create_default_icon (env : FontEnv) (size : Nat) : Except PyErr Image :=
  (defaultIconCmds env size).map (renderCmds env size)

/-- Whether any glyph command of the default icon covers the pixel `(x, y)`. -/
def textCovers (env : FontEnv) (size : Nat) (x y : Int) : Bool :=
  (textCmds env size).any (fun c => covers env c x y)

/-- The drawn "R" glyph (and its shadow) lies inside the gradient circle.
This depends only on the font metrics, which are external inputs. -/
def glyphInsideCircle (env : FontEnv) (size : Nat) : Prop :=
  ∀ x y : Int, textCovers env size x y = true →
    (x - (centerN size : Int)) ^ 2 + (y - (centerN size : Int)) ^ 2 ≤ (radiusZ size) ^ 2

/-- A source image on disk as the imaging library sees it: colour mode and
dimensions (arbitrary). -/
structure SrcImage where
  mode : String
  width : Nat
  height : Nat
deriving DecidableEq

/-- Image operations `resize_image` performs on the loaded source. -/
inductive ImgOp where
  | convert (mode : String)
  | resize (w h : Nat) (filter : String)
deriving DecidableEq

/-- Lines 64-73: `resize_image(source_path, size)`: convert to RGBA if not
already, then resize to `(size, size)` with `Image.Resampling.LANCZOS`.
Returns the resulting image together with the operations applied. -/
def resize_image (src : SrcImage) (size : Nat) : SrcImage × List ImgOp :=
  let converted : SrcImage × List ImgOp :=
    if src.mode ≠ "RGBA" then ({ src with mode := "RGBA" }, [ImgOp.convert "RGBA"])
    else (src, [])
  ({ converted.1 with width := size, height := size },
   converted.2 ++ [ImgOp.resize size size "LANCZOS"])

/-- The filesystem as the program observes it: which paths exist. -/
structure FS where
  pathExists : String → Bool

/-- Parsed command-line arguments (lines 115-117): optional positional
`source` and the `--list-sizes` flag. -/
structure Args where
  source : Option String
  listSizes : Bool
deriving DecidableEq

/-- Python truthiness of the optional `source` string: `None` and the empty
string are falsy. -/
def truthy : Option String → Bool
  | none => false
  | some s => if s = "" then false else true

/-- Line 84 / line 100: `source_path and os.path.exists(source_path)` with
Python short-circuit evaluation. -/
def srcUsable (source : Option String) (fs : FS) : Bool :=
  match source with
  | none => false
  | some p => (if p = "" then false else true) && fs.pathExists p

/-- Lines 92-93: `os.path.join('icons', f"icon-{size}x{size}.png")`. -/
def iconPath (s : Nat) : String :=
  "icons/icon-" ++ toString s ++ "x" ++ toString s ++ ".png"

/-- The per-size progress line (line 85 or line 88). -/
def genLine (source : Option String) (fs : FS) (s : Nat) : String :=
  if srcUsable source fs then
    "  Generating " ++ toString s ++ "x" ++ toString s ++ " from " ++ source.getD ""
  else
    "  Generating default " ++ toString s ++ "x" ++ toString s ++ " icon"

/-- One iteration of the loop on lines 83-96: print the progress line, render
the icon (resize path or default path; only the default path can raise),
save it as PNG, print the saved line.  The saved pixel data is abstracted
away; the write records path and format. -/
def perSizeStep (env : FontEnv) (fs : FS) (source : Option String) (s : Nat) :
    Except PyErr (List String × (String × String)) :=
  let out := ([genLine source fs s, "    Saved: " ++ iconPath s], (iconPath s, "PNG"))
  if srcUsable source fs then .ok out
  else (create_default_icon env s).map (fun _ => out)

/-- Lines 99-105: render the favicon at size 32 (same resize-or-default rule). -/
def favStep (env : FontEnv) (fs : FS) (source : Option String) : Except PyErr Unit :=
  if srcUsable source fs then .ok ()
  else (create_default_icon env 32).map (fun _ => ())

/-- Observable effects of `generate_icons`: console output, directories
created, files written as (path, format), and the Python return value
(`none` models Python `None`; the function has no `return` statement). -/
structure DriverOut where
  prints : List String
  mkdirs : List String
  writes : List (String × String)
  ret : Option (List String)
deriving DecidableEq

/-- Lines 75-112: `generate_icons(source_path=None)`.  Creates the `icons`
directory, loops over `ICON_SIZES`, writes the favicon, prints the summary,
and returns `None`. -/
def generate_icons (env : FontEnv) (fs : FS) (source : Option String) :
    Except PyErr DriverOut := do
  let steps ← pyMapM (perSizeStep env fs source) ICON_SIZES
  let _ ← favStep env fs source
  .ok ⟨"Generating PWA icons in 'icons' directory..." ::
        ((steps.map Prod.fst).flatten ++
          (["  Generating favicon.ico", "    Saved: favicon.ico",
            "\n✅ Successfully generated " ++ toString ICON_SIZES.length ++ " icons + favicon!",
            "\nGenerated files:"] ++
            (ICON_SIZES.map (fun s => "  - " ++ iconPath s) ++ ["  - favicon.ico"]))),
      ["icons"],
      steps.map Prod.snd ++ [("favicon.ico", "ICO")],
      none⟩

/-- Observable effects of `main`. -/
structure MainOut where
  prints : List String
  mkdirs : List String
  writes : List (String × String)
deriving DecidableEq

/-- Message text of an exception. -/
def errText : PyErr → String
  | .zeroDivision => "division by zero"
  | .importError => "No module named PIL"

/-- Lines 131-137: `try: generate_icons(args.source) except ImportError: ...
except Exception as e: ...`.  Both handler branches are unreachable
(`generate_icons` never raises, see the theorems below) but are modelled to
mirror the source; on an exception the partial output before the raise is
not modelled, since no exception can in fact occur. -/
def generationOut (env : FontEnv) (fs : FS) (source : Option String) : MainOut :=
  match generate_icons env fs source with
  | .ok d => ⟨d.prints, d.mkdirs, d.writes⟩
  | .error .importError =>
      ⟨["❌ Error: PIL (Pillow) library required", "Install with: pip3 install Pillow"], [], []⟩
  | .error e => ⟨["❌ Error generating icons: " ++ errText e], [], []⟩

/-- Lines 114-137: `main()`. -/
def main (env : FontEnv) (fs : FS) (args : Args) : MainOut :=
  if args.listSizes then
    ⟨"Required PWA icon sizes:" ::
       ICON_SIZES.map (fun s => "  - " ++ toString s ++ "x" ++ toString s),
     [], []⟩
  else if truthy args.source && !(fs.pathExists (args.source.getD "")) then
    ⟨["❌ Error: Source file '" ++ args.source.getD "" ++ "' not found"], [], []⟩
  else
    generationOut env fs args.source

/-- Outcome of running the script `python3 generate_icons.py ...`. -/
inductive ScriptResult where
  | uncaughtImportError
  | ran (out : MainOut)
deriving DecidableEq

/-- The whole script run: line 13 executes `from PIL import Image, ImageDraw,
ImageFont` at module level.  When Pillow is not installed this import raises
`ImportError` while the module is being loaded, before `main` is even
defined, so the process dies with an uncaught exception; otherwise
`if __name__ == '__main__': main()` runs (lines 139-140). -/
def runScript (pil : Bool) (env : FontEnv) (fs : FS) (args : Args) : ScriptResult :=
  if pil then .ran (main env fs args) else .uncaughtImportError

/-- Modelled from the spec: "compute `alpha = round(255 * i / radius)`" with
round-to-nearest (half rounds up; no tie occurs at the inputs used below).
This is the spec's formula, to be compared with the code's truncation. -/
def roundNearestSpec (num den : Nat) : Nat := (2 * num + den) / (2 * den)

/-- The 13 relative paths the driver writes and lists in its summary. -/
def expectedPaths : List String := ICON_SIZES.map iconPath ++ ["favicon.ico"]

/-- The 13 file writes of a successful run: 12 PNGs plus the ICO favicon. -/
def expectedWrites : List (String × String) :=
  ICON_SIZES.map (fun s => (iconPath s, "PNG")) ++ [("favicon.ico", "ICO")]

/-- Alpha channel of a drawing command, when it is an ellipse. -/
def ellipseAlpha? : Cmd → Option Nat
  | .ellipse _ _ _ _ fill => some fill.a
  | .text _ _ _ _ _ => none

/-- Alpha channel of the drawing command at position `idx` of the default
icon trace (if the trace was produced without raising and that command is an
ellipse). -/
def ringAlphaAt (env : FontEnv) (size idx : Nat) : Option Nat :=
  ((defaultIconCmds env size).toOption.bind (fun cs => cs[idx]?)).bind ellipseAlpha?

/-- Is a command a text command? -/
def isTextCmd : Cmd → Bool
  | .text _ _ _ _ _ => true
  | .ellipse _ _ _ _ _ => false

/-- Size/mode/transparency invariant of the renderer at a given size, for
both paths (claim C4's property). -/
def RendererOutputOk (env : FontEnv) (size : Nat) : Prop :=
  (∃ img, create_default_icon env size = .ok img ∧
    img.width = size ∧ img.height = size ∧ img.mode = "RGBA" ∧
    ∀ x y : Int,
      (radiusZ size) ^ 2 < (x - (centerN size : Int)) ^ 2 + (y - (centerN size : Int)) ^ 2 →
      img.px x y = clear) ∧
  (∀ src : SrcImage, (resize_image src size).1.width = size ∧
    (resize_image src size).1.height = size ∧ (resize_image src size).1.mode = "RGBA")

/-- Totality and small-size behaviour of the default renderer (claim C10's
property): it always returns a size×size RGBA image, and for `size ≤ 9` the
radius is nonpositive, the ring loop is empty (so the division by the radius
is never evaluated) and the image is fully transparent. -/
def DefaultIconSafe (env : FontEnv) (size : Nat) : Prop :=
  (∃ img, create_default_icon env size = .ok img ∧
    img.width = size ∧ img.height = size ∧ img.mode = "RGBA") ∧
  (size ≤ 9 → radiusZ size ≤ 0 ∧ ringRange (radiusZ size) = [] ∧
    ∀ img, create_default_icon env size = .ok img → ∀ x y : Int, img.px x y = clear)

/-- A concrete font environment for witnesses: Arial loads, `textbbox` reports
a plausible box for "R", and the glyph mask is empty. -/
def env0 : FontEnv := ⟨true, fun _ _ => ⟨0, 3, 8, 12⟩, fun _ _ _ _ => false⟩

/-- A concrete filesystem on which no path exists. -/
def fs0 : FS := ⟨fun _ => false⟩

/-! ## Helper lemmas -/

theorem pyMapM_congr {α β : Type} (f : α → Except PyErr β) (g : α → β) :
    ∀ l : List α, (∀ a ∈ l, f a = .ok (g a)) → pyMapM f l = .ok (l.map g)
  | [], _ => rfl
  | a :: l, h => by
    have ha := h a (List.mem_cons_self a l)
    have ht := pyMapM_congr f g l (fun b hb => h b (List.mem_cons_of_mem a hb))
    simp only [pyMapM, ha, ht]
    rfl

theorem mem_ringRange {r : Int} {i : Nat} (h : i ∈ ringRange r) :
    1 ≤ i ∧ i ≤ r.toNat := by
  rcases List.mem_map.mp h with ⟨k, hk, rfl⟩
  have := List.mem_range.mp hk
  omega

theorem ringCmdE_eq (size i : Nat) (hr : (radiusZ size).toNat ≠ 0) :
    ringCmdE size i = .ok (ringCmdVal size i) := by
  simp only [ringCmdE, ringCmdVal, pyDiv, if_neg hr]
  rfl

theorem defaultIconCmds_eq (env : FontEnv) (size : Nat) :
    defaultIconCmds env size =
      .ok ((ringRange (radiusZ size)).map (ringCmdVal size) ++ textCmds env size) := by
  unfold defaultIconCmds
  rw [pyMapM_congr (ringCmdE size) (ringCmdVal size) _
    (fun i hi => ringCmdE_eq size i (by have := mem_ringRange hi; omega))]
  rfl

theorem create_default_icon_eq (env : FontEnv) (size : Nat) :
    create_default_icon env size =
      .ok (renderCmds env size
        ((ringRange (radiusZ size)).map (ringCmdVal size) ++ textCmds env size)) := by
  unfold create_default_icon
  rw [defaultIconCmds_eq]
  rfl

theorem create_ok (env : FontEnv) (size : Nat) :
    ∃ img, create_default_icon env size = .ok img :=
  ⟨_, create_default_icon_eq env size⟩

theorem foldl_applyCmd_dims (env : FontEnv) :
    ∀ (cmds : List Cmd) (img : Image),
      (cmds.foldl (applyCmd env) img).width = img.width ∧
      (cmds.foldl (applyCmd env) img).height = img.height ∧
      (cmds.foldl (applyCmd env) img).mode = img.mode
  | [], _ => ⟨rfl, rfl, rfl⟩
  | c :: cs, img => by
    have ih := foldl_applyCmd_dims env cs (applyCmd env img c)
    simpa [applyCmd] using ih

theorem foldl_applyCmd_px (env : FontEnv) (x y : Int) :
    ∀ (cmds : List Cmd) (img : Image),
      (∀ c ∈ cmds, covers env c x y = false) →
      (cmds.foldl (applyCmd env) img).px x y = img.px x y
  | [], _, _ => rfl
  | c :: cs, img, h => by
    have hc := h c (List.mem_cons_self c cs)
    have ih := foldl_applyCmd_px env x y cs (applyCmd env img c)
      (fun d hd => h d (List.mem_cons_of_mem c hd))
    simp only [List.foldl_cons] at ih ⊢
    rw [ih]
    simp [applyCmd, hc]

theorem inEllipse_circle (c : Int) (i : Nat) (hi : 1 ≤ i) (x y : Int)
    (h : inEllipse (c - i) (c - i) (c + i) (c + i) x y = true) :
    (x - c) ^ 2 + (y - c) ^ 2 ≤ (i : Int) ^ 2 := by
  have h2 := of_decide_eq_true h
  have hi' : (1 : Int) ≤ (i : Int) := by exact_mod_cast hi
  have hpos : (0 : Int) < 16 * (i : Int) ^ 2 := by nlinarith
  have hkey : 16 * (i : Int) ^ 2 * ((x - c) ^ 2 + (y - c) ^ 2)
      ≤ 16 * (i : Int) ^ 2 * ((i : Int) ^ 2) := by nlinarith [h2]
  exact le_of_mul_le_mul_left hkey hpos

theorem perSizeStep_eq (env : FontEnv) (fs : FS) (source : Option String) (s : Nat) :
    perSizeStep env fs source s =
      .ok ([genLine source fs s, "    Saved: " ++ iconPath s], (iconPath s, "PNG")) := by
  unfold perSizeStep
  by_cases h : srcUsable source fs = true
  · simp [h]
  · have h' : srcUsable source fs = false := by
      cases hx : srcUsable source fs
      · rfl
      · exact absurd hx h
    obtain ⟨img, himg⟩ := create_ok env s
    simp [h', himg, Except.map]

theorem favStep_eq (env : FontEnv) (fs : FS) (source : Option String) :
    favStep env fs source = .ok () := by
  unfold favStep
  by_cases h : srcUsable source fs = true
  · simp [h]
  · have h' : srcUsable source fs = false := by
      cases hx : srcUsable source fs
      · rfl
      · exact absurd hx h
    obtain ⟨img, himg⟩ := create_ok env 32
    simp [h', himg, Except.map]

theorem gen_spec (env : FontEnv) (fs : FS) (source : Option String) :
    generate_icons env fs source =
      .ok ⟨"Generating PWA icons in 'icons' directory..." ::
            ((ICON_SIZES.map (fun s => [genLine source fs s, "    Saved: " ++ iconPath s])).flatten ++
              (["  Generating favicon.ico", "    Saved: favicon.ico",
                "\n✅ Successfully generated " ++ toString ICON_SIZES.length ++ " icons + favicon!",
                "\nGenerated files:"] ++
                (ICON_SIZES.map (fun s => "  - " ++ iconPath s) ++ ["  - favicon.ico"]))),
          ["icons"],
          ICON_SIZES.map (fun s => (iconPath s, "PNG")) ++ [("favicon.ico", "ICO")],
          none⟩ := by
  unfold generate_icons
  rw [pyMapM_congr (perSizeStep env fs source)
    (fun s => ([genLine source fs s, "    Saved: " ++ iconPath s], (iconPath s, "PNG")))
    ICON_SIZES (fun s _ => perSizeStep_eq env fs source s)]
  rw [favStep_eq]
  rfl

/-! ## Claim theorems -/

/-- C2: the claim says that with Pillow missing the program prints an install
hint and returns normally.  In fact the module-level `from PIL import ...`
(line 13) raises `ImportError` while the module loads, before `main` and its
`except ImportError` handler (lines 133-135) even exist, so every invocation
without Pillow dies with an uncaught exception and prints no hint.  The
handler that was meant to print the remediation hint is unreachable for this
scenario: a bug in the code relative to its evident intent. -/
theorem missing_pil_crash : ∀ (env : FontEnv) (fs : FS) (args : Args),
    runScript false env fs args = ScriptResult.uncaughtImportError := by
  intro env fs args
  rfl

/-- C5: `resize_image` converts the source to RGBA exactly when it is not
already RGBA, and performs a single LANCZOS resample to `size × size` — no
crop, no letterbox, no aspect-ratio correction — so the result is always a
`size × size` RGBA image, whatever the source dimensions and mode. -/
theorem resize_image_spec : ∀ (src : SrcImage) (size : Nat),
    (resize_image src size).1.width = size ∧
    (resize_image src size).1.height = size ∧
    (resize_image src size).1.mode = "RGBA" ∧
    (resize_image src size).2 =
      (if src.mode = "RGBA" then [] else [ImgOp.convert "RGBA"]) ++
        [ImgOp.resize size size "LANCZOS"] := by
  intro src size
  by_cases h : src.mode = "RGBA" <;> simp [resize_image, h]

/-- C8: `create_default_icon(16)` does not raise: the radius is `16/2 - 4 =
4`, the ring loop draws exactly the four circles listed (alphas 255, 191,
127, 63), and a 16×16 RGBA image is returned. -/
theorem small_icon_safe : ∀ env : FontEnv,
    radiusZ 16 = 4 ∧
    defaultIconCmds env 16 = .ok
      [Cmd.ellipse 4 4 12 12 ⟨13, 110, 253, 255⟩,
       Cmd.ellipse 5 5 11 11 ⟨40, 110, 253, 191⟩,
       Cmd.ellipse 6 6 10 10 ⟨68, 110, 253, 127⟩,
       Cmd.ellipse 7 7 9 9 ⟨95, 110, 253, 63⟩] ∧
    ∃ img, create_default_icon env 16 = .ok img ∧
      img.width = 16 ∧ img.height = 16 ∧ img.mode = "RGBA" := by
  intro env
  refine ⟨by decide, ?_, ?_⟩
  · rw [defaultIconCmds_eq]
    rfl
  · obtain ⟨d1, d2, d3⟩ := foldl_applyCmd_dims env
      ((ringRange (radiusZ 16)).map (ringCmdVal 16) ++ textCmds env 16) (blankImage 16)
    exact ⟨_, create_default_icon_eq env 16, d1, d2, d3⟩

/-- C10: for every positive size (also sizes outside the fixed list)
`create_default_icon` returns a size×size RGBA image without raising; for
`size ≤ 9` the radius is nonpositive, the ring loop body never runs (so the
division by a zero or negative radius is never evaluated) and the returned
image is fully transparent. -/
theorem default_icon_total : ∀ (env : FontEnv) (size : Nat),
    0 < size → DefaultIconSafe env size := by
  intro env size _
  constructor
  · obtain ⟨d1, d2, d3⟩ := foldl_applyCmd_dims env
      ((ringRange (radiusZ size)).map (ringCmdVal size) ++ textCmds env size) (blankImage size)
    exact ⟨_, create_default_icon_eq env size, d1, d2, d3⟩
  · intro h9
    have hc : centerN size ≤ 4 := by unfold centerN; omega
    have hrad : radiusZ size ≤ 0 := by unfold radiusZ; omega
    have hnat : (radiusZ size).toNat = 0 := by omega
    have hring : ringRange (radiusZ size) = [] := by
      unfold ringRange
      rw [hnat]
      rfl
    have htext : textCmds env size = [] := by
      unfold textCmds
      rw [if_neg]
      omega
    have hcreate : create_default_icon env size = .ok (blankImage size) := by
      rw [create_default_icon_eq, hring, htext]
      rfl
    refine ⟨hrad, hring, ?_⟩
    intro img himg x y
    have heq := hcreate.symm.trans himg
    injection heq with heq
    rw [← heq]
    rfl

/-- Claim C10 witness: the theorem instantiated at size 9 and a concrete
font environment. -/
theorem default_icon_total_witness : 0 < 9 ∧ DefaultIconSafe env0 9 :=
  ⟨by decide, default_icon_total env0 9 (by decide)⟩

/-- C9: with `--list-sizes` the program prints the header line and then
exactly the 12 sizes, one per line, in the fixed order, creating no files
and no directories. -/
theorem list_sizes_spec : ∀ (env : FontEnv) (fs : FS) (args : Args),
    args.listSizes = true →
    main env fs args =
      ⟨["Required PWA icon sizes:", "  - 16x16", "  - 32x32", "  - 36x36", "  - 48x48",
        "  - 72x72", "  - 96x96", "  - 128x128", "  - 144x144", "  - 152x152",
        "  - 192x192", "  - 384x384", "  - 512x512"], [], []⟩ := by
  intro env fs args h
  simp only [main, h, if_true]
  decide

/-- Claim C9 witness: the theorem at the concrete invocation
`python3 generate_icons.py --list-sizes`. -/
theorem list_sizes_witness :
    (⟨none, true⟩ : Args).listSizes = true ∧
    main env0 fs0 ⟨none, true⟩ =
      ⟨["Required PWA icon sizes:", "  - 16x16", "  - 32x32", "  - 36x36", "  - 48x48",
        "  - 72x72", "  - 96x96", "  - 128x128", "  - 144x144", "  - 152x152",
        "  - 192x192", "  - 384x384", "  - 512x512"], [], []⟩ :=
  ⟨rfl, list_sizes_spec env0 fs0 ⟨none, true⟩ rfl⟩

/-- C7 counterexample: the claim quantifies over every invocation that
supplies a source argument naming a nonexistent file.  Supplying the empty
string as the source argument is such an invocation (no file named "" exists),
yet Python's truthiness test `if args.source and not os.path.exists(...)`
(line 127) skips the error branch for the falsy empty string, and the program
proceeds to generate all 13 default files instead of printing the error and
stopping. -/
theorem empty_source_counterexample :
    fs0.pathExists "" = false ∧
    (main env0 fs0 ⟨some "", false⟩).writes = expectedWrites := by
  refine ⟨rfl, ?_⟩
  have hm : main env0 fs0 ⟨some "", false⟩ = generationOut env0 fs0 (some "") := by
    simp [main, truthy]
  rw [hm]
  unfold generationOut
  rw [gen_spec]
  rfl

/-- C7 (amended): when `--list-sizes` is not passed and a nonempty source
argument names a file that does not exist, `main` prints the source-not-found
error and returns without writing any file or creating any directory. -/
theorem missing_source_error : ∀ (env : FontEnv) (fs : FS) (p : String),
    p ≠ "" → fs.pathExists p = false →
    main env fs ⟨some p, false⟩ =
      ⟨["❌ Error: Source file '" ++ p ++ "' not found"], [], []⟩ := by
  intro env fs p hp hfs
  simp [main, truthy, hp, hfs]

/-- Claim C7 witness: the amended theorem at a concrete nonexistent path. -/
theorem missing_source_error_witness :
    ("missing.png" : String) ≠ "" ∧ fs0.pathExists "missing.png" = false ∧
    main env0 fs0 ⟨some "missing.png", false⟩ =
      ⟨["❌ Error: Source file '" ++ "missing.png" ++ "' not found"], [], []⟩ :=
  ⟨by decide, rfl, missing_source_error env0 fs0 "missing.png" (by decide) rfl⟩

/-- C1 counterexample: `generate_icons` completes successfully on a default
run but its Python return value is `None` — the function has no `return`
statement — and not the list of written file paths the claim asserts it
returns. -/
theorem generate_icons_ret_counterexample :
    (generate_icons env0 fs0 none).map DriverOut.ret = .ok none ∧
    (Except.ok (some expectedPaths) : Except PyErr (Option (List String))) ≠
      (generate_icons env0 fs0 none).map DriverOut.ret := by
  rw [gen_spec]
  refine ⟨rfl, ?_⟩
  intro h
  simp [Except.map] at h

/-- C1 (amended): on successful completion `generate_icons` has written
exactly the 12 per-size PNGs plus `favicon.ico`, created the `icons`
directory, and printed progress output ending with a summary listing all 13
written paths — but its return value is `None`, not that list of paths. -/
theorem generate_icons_outputs : ∀ (env : FontEnv) (fs : FS) (source : Option String),
    ∃ (d : DriverOut) (gs : List (List String)),
      generate_icons env fs source = .ok d ∧
      d.ret = none ∧
      d.writes = expectedWrites ∧
      d.mkdirs = ["icons"] ∧
      d.prints = "Generating PWA icons in 'icons' directory..." ::
        (gs.flatten ++
          (["  Generating favicon.ico", "    Saved: favicon.ico",
            "\n✅ Successfully generated " ++ toString ICON_SIZES.length ++ " icons + favicon!",
            "\nGenerated files:"] ++ expectedPaths.map (fun p => "  - " ++ p))) := by
  intro env fs source
  refine ⟨_, ICON_SIZES.map (fun s => [genLine source fs s, "    Saved: " ++ iconPath s]),
    gen_spec env fs source, rfl, rfl, rfl, ?_⟩
  simp [expectedPaths, List.map_map, Function.comp]

/-- C3 counterexample: the claim says `alpha = round(255 * i / radius)` with
rounding to nearest.  At size 32 the radius is 12, and the ring `i = 7`
(trace index 5, since rings are listed from 12 down to 1) gets
`alpha = int(255 * 7 / 12) = int(148.75) = 148`, while rounding to nearest
gives 149: the code truncates, it does not round. -/
theorem ring_alpha_counterexample :
    radiusZ 32 = 12 ∧ ringAlphaAt env0 32 5 = some 148 ∧
    roundNearestSpec (255 * 7) 12 = 149 :=
  ⟨by decide, by decide, by decide⟩

/-- C3 (amended): for every size with radius ≥ 1 and every ring `i` from the
radius down to 1, the alpha of ring `i` (the trace entry at index
`radius - i`) is the truncation `int(255 * i / radius)`: the unique `a` with
`radius * a ≤ 255 * i < radius * (a + 1)` — floor, not round-to-nearest. -/
theorem ring_alpha_floor : ∀ (env : FontEnv) (size i : Nat),
    1 ≤ i → i ≤ (radiusZ size).toNat →
    ∃ a : Nat, ringAlphaAt env size ((radiusZ size).toNat - i) = some a ∧
      (radiusZ size).toNat * a ≤ 255 * i ∧
      255 * i < (radiusZ size).toNat * (a + 1) := by
  intro env size i h1 h2
  refine ⟨255 * i / (radiusZ size).toNat, ?_, ?_, ?_⟩
  · have hlen : ((ringRange (radiusZ size)).map (ringCmdVal size)).length
        = (radiusZ size).toNat := by
      simp [ringRange]
    have hidx : (radiusZ size).toNat - i
        < ((ringRange (radiusZ size)).map (ringCmdVal size)).length := by
      rw [hlen]; omega
    have hrr : (ringRange (radiusZ size))[(radiusZ size).toNat - i]? = some i := by
      unfold ringRange
      rw [List.getElem?_map, List.getElem?_range (by omega)]
      simp
      omega
    simp only [ringAlphaAt, defaultIconCmds_eq, Except.toOption, Option.bind]
    rw [List.getElem?_append, if_pos hidx, List.getElem?_map, hrr]
    simp [ellipseAlpha?, ringCmdVal]
  · calc (radiusZ size).toNat * (255 * i / (radiusZ size).toNat)
        = (255 * i / (radiusZ size).toNat) * (radiusZ size).toNat := Nat.mul_comm _ _
      _ ≤ 255 * i := Nat.div_mul_le_self _ _
  · have h0 : 0 < (radiusZ size).toNat := by omega
    have hlt := Nat.mod_lt (255 * i) h0
    calc 255 * i
        = (radiusZ size).toNat * (255 * i / (radiusZ size).toNat)
            + 255 * i % (radiusZ size).toNat := (Nat.div_add_mod _ _).symm
      _ < (radiusZ size).toNat * (255 * i / (radiusZ size).toNat)
            + (radiusZ size).toNat := Nat.add_lt_add_left hlt _
      _ = (radiusZ size).toNat * (255 * i / (radiusZ size).toNat + 1) := by
          rw [Nat.mul_succ]

/-- Claim C3 witness: the amended theorem at size 32, ring 7. -/
theorem ring_alpha_floor_witness :
    1 ≤ 7 ∧ 7 ≤ (radiusZ 32).toNat ∧
    ∃ a : Nat, ringAlphaAt env0 32 ((radiusZ 32).toNat - 7) = some a ∧
      (radiusZ 32).toNat * a ≤ 255 * 7 ∧
      255 * 7 < (radiusZ 32).toNat * (a + 1) :=
  ⟨by decide, by decide, ring_alpha_floor env0 32 7 (by decide) (by decide)⟩

/-- C4: for every size in the fixed list, the default renderer returns an
exactly size×size RGBA image whose pixels outside the drawn circle (radius
`size/2 - 4`) are fully transparent — under the font-dependent assumption
that the drawn glyph (sizes ≥ 72 only) lies inside the circle — and the
resize renderer returns an exactly size×size RGBA image for any source. -/
theorem renderer_size_invariant : ∀ (env : FontEnv) (size : Nat),
    size ∈ ICON_SIZES → glyphInsideCircle env size → RendererOutputOk env size := by
  intro env size _ hglyph
  constructor
  · obtain ⟨d1, d2, d3⟩ := foldl_applyCmd_dims env
      ((ringRange (radiusZ size)).map (ringCmdVal size) ++ textCmds env size) (blankImage size)
    refine ⟨_, create_default_icon_eq env size, d1, d2, d3, ?_⟩
    intro x y hout
    have hall : ∀ c ∈ (ringRange (radiusZ size)).map (ringCmdVal size) ++ textCmds env size,
        covers env c x y = false := by
      intro c hc
      cases hcov : covers env c x y
      · rfl
      · exfalso
        rcases List.mem_append.mp hc with hring | htext
        · rcases List.mem_map.mp hring with ⟨i, hi, rfl⟩
          obtain ⟨hi1, hi2⟩ := mem_ringRange hi
          have hin : inEllipse ((centerN size : Int) - i) ((centerN size : Int) - i)
              ((centerN size : Int) + i) ((centerN size : Int) + i) x y = true := by
            simpa [ringCmdVal, covers] using hcov
          have hle := inEllipse_circle (centerN size : Int) i hi1 x y hin
          have hiZ : (i : Int) ≤ radiusZ size := by omega
          have hi0 : (0 : Int) ≤ (i : Int) := by positivity
          have hsq : (i : Int) ^ 2 ≤ (radiusZ size) ^ 2 := pow_le_pow_left₀ hi0 hiZ 2
          linarith
        · have hany : textCovers env size x y = true :=
            List.any_eq_true.mpr ⟨c, htext, hcov⟩
          have := hglyph x y hany
          linarith
    exact foldl_applyCmd_px env x y
      ((ringRange (radiusZ size)).map (ringCmdVal size) ++ textCmds env size)
      (blankImage size) hall
  · intro src
    by_cases h : src.mode = "RGBA" <;> simp [resize_image, h]

/-- Claim C4 witness: the invariant at size 72 and a concrete font
environment whose glyph mask is empty (hence trivially inside the circle). -/
theorem renderer_size_invariant_witness :
    72 ∈ ICON_SIZES ∧ glyphInsideCircle env0 72 ∧ RendererOutputOk env0 72 := by
  have hg : glyphInsideCircle env0 72 := by
    intro x y hxy
    exfalso
    simp [textCovers, textCmds, covers, env0] at hxy
  exact ⟨by decide, hg, renderer_size_invariant env0 72 (by decide) hg⟩

/-- C6: the default icon draws no glyph for sizes < 72; for sizes ≥ 72 the
trace contains exactly two text commands: first the shadow "R" at
`(text_x + 1, text_y + 1)` in black with alpha 128, then the main "R" at the
bounding-box-centred `(text_x, text_y)` in opaque white, both with the same
font — Arial at glyph size `max(size/8, 12)` when the truetype load
succeeds, the built-in default font otherwise. -/
theorem glyph_drawing_spec : ∀ (env : FontEnv) (size : Nat), ∃ f : FontSpec,
    (defaultIconCmds env size).map (fun cs => cs.filter isTextCmd) =
      .ok (if 72 ≤ size then
        [Cmd.text (glyphX env size + 1) (glyphY env size + 1) "R" ⟨0, 0, 0, 128⟩ f,
         Cmd.text (glyphX env size) (glyphY env size) "R" ⟨255, 255, 255, 255⟩ f]
      else []) ∧
    (env.arialAvailable = true → f = FontSpec.truetype arialPath (max (size / 8) 12)) ∧
    (env.arialAvailable = false → f = FontSpec.loadDefault) := by
  intro env size
  refine ⟨fontFor env size, ?_, ?_, ?_⟩
  · rw [defaultIconCmds_eq]
    have hr : ((ringRange (radiusZ size)).map (ringCmdVal size)).filter isTextCmd = [] := by
      rw [List.filter_eq_nil_iff]
      intro c hc
      rcases List.mem_map.mp hc with ⟨i, _, rfl⟩
      simp [ringCmdVal, isTextCmd]
    show Except.ok ((((ringRange (radiusZ size)).map (ringCmdVal size))
      ++ textCmds env size).filter isTextCmd) = _
    rw [List.filter_append, hr]
    by_cases h : 72 ≤ size
    · simp [textCmds, h, isTextCmd]
    · simp [textCmds, h]
  · intro ha
    simp [fontFor, fontSizeFor, ha]
  · intro ha
    simp [fontFor, ha]

/-- Claim C6 witness: the glyph theorem at size 72 with a concrete font
environment (Arial available). -/
theorem glyph_drawing_witness : ∃ f : FontSpec,
    (defaultIconCmds env0 72).map (fun cs => cs.filter isTextCmd) =
      .ok (if 72 ≤ 72 then
        [Cmd.text (glyphX env0 72 + 1) (glyphY env0 72 + 1) "R" ⟨0, 0, 0, 128⟩ f,
         Cmd.text (glyphX env0 72) (glyphY env0 72) "R" ⟨255, 255, 255, 255⟩ f]
      else []) ∧
    (env0.arialAvailable = true → f = FontSpec.truetype arialPath (max (72 / 8) 12)) ∧
    (env0.arialAvailable = false → f = FontSpec.loadDefault) :=
  glyph_drawing_spec env0 72

end RaadsIcons
